import Mathlib

/-
Shallow embedding of src/odcprovider/odcprovider.py (OpenDataCubeProvider).

Python exceptions are modelled by the PyErr type and fallible code returns
Except PyErr. Floating point coordinates are modelled by the rationals.
Python dicts keyed by strings are modelled as association lists with
insert-or-replace semantics (dictInsert / getVal). External collaborators
(the datacube catalog, the pyproj transformer, the array loader) appear as
explicit inputs or function parameters of the embedded operations.
-/

namespace OdcProvider

/-- Python exception values that the embedded code can raise. The
ProviderQueryError and ProviderConnectionError constructors model the
pygeoapi provider error classes; the others model Python builtins. -/
inductive PyErr where
  | keyError (key : String)
  | indexError
  | valueError (msg : String)
  | zeroDivisionError
  | providerQueryError (msg : String)
  | providerConnectionError (cause : PyErr)
  deriving DecidableEq, Repr

/-- Python float division: raises ZeroDivisionError on a zero divisor. -/
def pydiv (a b : ℚ) : Except PyErr ℚ :=
  if b = 0 then .error .zeroDivisionError else .ok (a / b)

/-- Python list indexing l[i]: some value or none when out of range (the
caller turns none into an IndexError). -/
def pyidx {α : Type} : List α → Nat → Option α
  | [], _ => none
  | a :: _, 0 => some a
  | _ :: rest, n + 1 => pyidx rest n

/-- Lookup in a string-keyed dict modelled as an association list:
first entry with the given key wins (entries have unique keys). -/
def getVal {α : Type} : List (String × α) → String → Option α
  | [], _ => none
  | (k, v) :: rest, key => if k = key then some v else getVal rest key

/-- Dict assignment d[k] = v: replace the value in place when the key is
present, otherwise append the new entry at the end (insertion order). -/
def dictInsert {α : Type} : List (String × α) → String → α → List (String × α)
  | [], k, v => [(k, v)]
  | (k0, v0) :: rest, k, v =>
      if k0 = k then (k, v) :: rest else (k0, v0) :: dictInsert rest k v

/-- Keys of a dict, in insertion order. -/
def keysOf {α : Type} (l : List (String × α)) : List String := l.map Prod.fst

/-- A coordinate reference system as exposed by the datacube CRS class:
its EPSG code, whether it is projected, and its unit names. -/
structure CRSObj where
  epsg : Nat
  projected : Bool
  units : List String
  deriving DecidableEq, Repr

/-- Bounds of one dataset (dataset.bounds): left, bottom, right, top. -/
structure BBoxQ where
  left : ℚ
  bottom : ℚ
  right : ℚ
  top : ℚ
  deriving DecidableEq, Repr

/-- One dataset record of the product as seen by _get_coverage_properties:
its bounds, its CRS, and the grid transform of its metadata document. -/
structure DatasetRecord where
  bounds : BBoxQ
  crs : CRSObj
  transform : List ℚ
  deriving DecidableEq, Repr

/-- Product-level metadata row from dc.list_products: the optional
resolution tuple, stored as (res0, res1) = (resy, resx) following the
coordinate order of the source, and the optional CRS. A null or missing
CRS string is modelled as none; a present string is modelled by the CRS
object the external CRS class parses it to. -/
structure ProductMetadata where
  resolution : Option (ℚ × ℚ)
  crs : Option CRSObj
  deriving DecidableEq, Repr

/-- The normalized coverage properties dict built by
_get_coverage_properties. The 4-element bbox list of the source is
modelled by four named fields, in the list order left, bottom, right,
top. -/
structure CoverageProps where
  bbox_left : ℚ
  bbox_bottom : ℚ
  bbox_right : ℚ
  bbox_top : ℚ
  crs_uri : String
  crs_type : String
  bbox_units : String
  x_axis_label : String
  y_axis_label : String
  width : ℚ
  height : ℚ
  resx : ℚ
  resy : ℚ
  transform : List ℚ
  num_bands : Nat
  axes : List String
  deriving DecidableEq, Repr

/-- One row of dc.list_measurements for the product. The aliases column
may be absent, modelled by none. -/
structure MeasRow where
  name : String
  dtype : String
  nodata : ℚ
  units : String
  aliases : Option String
  deriving DecidableEq, Repr

/-- One normalized measurement properties dict, as built by
_get_measurement_properties. -/
structure MeasProps where
  id : Nat
  name : String
  dtype : String
  nodata : ℚ
  unit : String
  aliases : Option String
  deriving DecidableEq, Repr

/-- One variable of the xarray Dataset returned by dc.load: its values
flattened in row-major storage order (numpy C order, all dimensions
including time), its attribute dict, and its dtype name. -/
structure DataArray where
  flat : List ℚ
  attrs : List (String × String)
  dtype : String
  deriving DecidableEq, Repr

/-- The xarray Dataset returned by dc.load: the data variables keyed by
band name in insertion order, the length of the time dimension, and the
attribute dict of the time coordinate. -/
structure XDataset where
  vars : List (String × DataArray)
  time_len : Nat
  time_attrs : List (String × String)
  deriving DecidableEq, Repr

/-- The keyword arguments handed to dc.load by query. -/
structure LoadParams where
  crs : String
  align : ℚ × ℚ
  x : ℚ × ℚ
  y : ℚ × ℚ
  measurements : Option (List String)
  deriving DecidableEq, Repr

/-- The out_meta dict built by query before format dispatch. -/
structure OutMeta where
  bbox : List ℚ
  width : ℚ
  height : ℚ
  bands : List String
  extra : List (String × String)
  deriving DecidableEq, Repr

/-- One parameters entry of the CoverageJSON document. -/
structure ParamEntry where
  description : String
  unit_symbol : String
  obs_id : String
  obs_label_en : String
  deriving DecidableEq, Repr

/-- One ranges entry of the CoverageJSON document. -/
structure RangeEntry where
  dataType : String
  axisNames : List String
  shape : List ℚ
  values : List ℚ
  deriving DecidableEq, Repr

/-- A regular axis of the CoverageJSON Grid domain. -/
structure AxisRange where
  start : ℚ
  stop : ℚ
  num : ℚ
  deriving DecidableEq, Repr

/-- The CoverageJSON document produced by gen_covjson. -/
structure CovJSON where
  typ : String
  domainType : String
  axis_x : AxisRange
  axis_y : AxisRange
  ref_coordinates : List String
  ref_type : String
  ref_id : String
  parameters : List (String × ParamEntry)
  ranges : List (String × RangeEntry)
  deriving DecidableEq, Repr

/-- The in-memory GeoTIFF written through rasterio MemoryFile: the
out_meta fields passed to memfile.open plus the stacked band data, one
flattened array per band, band axis first. -/
structure GeoTiff where
  driver : String
  crs : Nat
  dtype : String
  nodata : ℚ
  count : Nat
  transform : List ℚ
  width : ℚ
  height : ℚ
  bbox : List ℚ
  data : List (List ℚ)
  deriving DecidableEq, Repr

/-- The three possible query outputs: a CoverageJSON mapping, GeoTIFF
bytes (modelled by the raster that was written), or NetCDF bytes
(modelled by the dataset that was serialized). -/
inductive QueryOutput where
  | covjson (cj : CovJSON)
  | geotiff (g : GeoTiff)
  | netcdf (ds : XDataset)
  deriving DecidableEq, Repr

/-- Modelled from the external datacube.utils.geometry.bbox_union: the
smallest box containing every box of the list (envelope). The empty case
never reaches the returned properties because the source indexes
transform_list[0] afterwards, which raises first. -/
def bbox_union : List BBoxQ → BBoxQ
  | [] => ⟨0, 0, 0, 0⟩
  | b :: rest =>
      rest.foldl
        (fun u x => ⟨min u.left x.left, min u.bottom x.bottom,
                     max u.right x.right, max u.top x.top⟩) b

/-- The per-dataset collection loop of _get_coverage_properties: bounds,
CRS, transform[0], transform[4] and the full transform of every dataset
record, in order. Indexing a too-short transform raises IndexError. -/
def collectMeta : List DatasetRecord →
    Except PyErr (List BBoxQ × List CRSObj × List ℚ × List ℚ × List (List ℚ))
  | [] => .ok ([], [], [], [], [])
  | r :: rest =>
      match pyidx r.transform 0, pyidx r.transform 4 with
      | some t0, some t4 =>
          match collectMeta rest with
          | .error e => .error e
          | .ok (bbs, crss, rxs, rys, ts) =>
              .ok (r.bounds :: bbs, r.crs :: crss, t0 :: rxs, t4 :: rys,
                   r.transform :: ts)
      | _, _ => .error .indexError

/-- _get_coverage_properties: normalize product-level and dataset-level
metadata into the coverage properties dict, also resolving the CRS
object that the source assigns to self.crs_obj. num_bands is the
measurement count obtained from the product index. -/
def get_coverage_properties (pm : ProductMetadata) (recs : List DatasetRecord)
    (num_bands : Nat) : Except PyErr (CoverageProps × CRSObj) :=
  match collectMeta recs with
  | .error e => .error e
  | .ok (bbs, crss, rxs, rys, ts) =>
    let bounds := bbox_union bbs
    match (match pm.crs with
           | some c => .ok c
           | none => match pyidx crss 0 with
                     | some c => .ok c
                     | none => .error .indexError : Except PyErr CRSObj) with
    | .error e => .error e
    | .ok crs_obj =>
      match (match pm.resolution with
             | some res => .ok res.2
             | none => match pyidx rxs 0 with
                       | some r => .ok r
                       | none => .error .indexError : Except PyErr ℚ) with
      | .error e => .error e
      | .ok resx =>
        match (match pm.resolution with
               | some res => .ok res.1
               | none => match pyidx rys 0 with
                         | some r => .ok r
                         | none => .error .indexError : Except PyErr ℚ) with
        | .error e => .error e
        | .ok resy =>
          match pyidx ts 0 with
          | none => .error .indexError
          | some transform =>
            match pydiv (bounds.right - bounds.left) resx with
            | .error e => .error e
            | .ok w =>
              match pydiv (bounds.top - bounds.bottom) resy with
              | .error e => .error e
              | .ok h =>
                let base : CoverageProps :=
                  { bbox_left := bounds.left
                    bbox_bottom := bounds.bottom
                    bbox_right := bounds.right
                    bbox_top := bounds.top
                    crs_uri := "http://www.opengis.net/def/crs/OGC/1.3/CRS84"
                    crs_type := "GeographicCRS"
                    bbox_units := "deg"
                    x_axis_label := "Lon"
                    y_axis_label := "Lat"
                    width := |w|
                    height := |h|
                    resx := resx
                    resy := resy
                    transform := transform
                    num_bands := num_bands
                    axes := [] }
                if crs_obj.projected then
                  match pyidx crs_obj.units 0 with
                  | none => .error .indexError
                  | some u =>
                      let p := { base with
                        crs_uri := "http://www.opengis.net/def/crs/EPSG/9.8.15/"
                                     ++ toString crs_obj.epsg
                        x_axis_label := "x"
                        y_axis_label := "y"
                        bbox_units := u
                        crs_type := "ProjectedCRS" }
                      .ok ({ p with axes := [p.x_axis_label, p.y_axis_label] },
                           crs_obj)
                else
                  .ok ({ base with
                          axes := [base.x_axis_label, base.y_axis_label] },
                       crs_obj)

/-- _get_measurement_properties: one normalized dict per measurement row,
with 1-indexed id in table order. -/
def get_measurement_properties (mm : List MeasRow) : List MeasProps :=
  (mm.enum).map (fun p =>
    { id := p.1 + 1
      name := p.2.name
      dtype := p.2.dtype
      nodata := p.2.nodata
      unit := p.2.units
      aliases := p.2.aliases })

/-- The provider definition handed to the constructor: the product name,
the format name under the format key (none models a missing key), and
the optional options dict inherited from BaseProvider. -/
structure ProviderDef where
  product : String
  format_name : Option String
  options : Option (List (String × String))
  deriving DecidableEq, Repr

/-- The fully constructed provider state set up by the constructor. -/
structure Engine where
  props : CoverageProps
  crs_obj : CRSObj
  meas : List MeasProps
  crs : String
  axes : List String
  num_bands : Nat
  fields : List String
  native_format : String
  deriving DecidableEq, Repr

/-- The constructor body: the metadata-normalization steps run inside a
try block whose handler re-raises every exception wrapped in a
ProviderConnectionError. On success every derived field is resolved. -/
def initEngine (pdef : ProviderDef) (pm : ProductMetadata)
    (recs : List DatasetRecord) (num_bands : Nat) (mm : List MeasRow) :
    Except PyErr Engine :=
  let body : Except PyErr Engine :=
    match get_coverage_properties pm recs num_bands with
    | .error e => .error e
    | .ok (props, crs_obj) =>
        let meas := get_measurement_properties mm
        match pdef.format_name with
        | none => .error (.keyError "format")
        | some fmt =>
            .ok { props := props
                  crs_obj := crs_obj
                  meas := meas
                  crs := props.crs_uri
                  axes := props.axes
                  num_bands := props.num_bands
                  fields := (List.range props.num_bands).map
                              (fun n => toString (n + 1))
                  native_format := fmt }
  match body with
  | .error e => .error (.providerConnectionError e)
  | .ok eng => .ok eng

/-- The spatial-subset resolution of query (source lines 119 to 165):
start from the full extent, raise when bbox and axis subsets are both
given, then resolve the bbox branch or the axis-subset branch. The
transformPt parameter is the external pyproj corner transformer used
when the native CRS differs from EPSG 4326. In the equal-CRS branch the
source only logs and never assigns the unpacked bbox values, so the
window keeps the full extent there. -/
def resolve_spatial_subset (props : CoverageProps) (crs_obj : CRSObj)
    (transformPt : ℚ × ℚ → ℚ × ℚ)
    (subsets : List (String × List ℚ)) (bbox : List ℚ) :
    Except PyErr (ℚ × ℚ × ℚ × ℚ) :=
  if (getVal subsets props.x_axis_label).isSome = true ∧
     (getVal subsets props.y_axis_label).isSome = true ∧
     0 < bbox.length then
    .error (.providerQueryError "bbox and subsetting by coordinates are exclusive")
  else if 0 < bbox.length then
    match bbox with
    | [minxbox, minybox, maxxbox, maxybox] =>
        if 4326 = crs_obj.epsg then
          .ok (props.bbox_left, props.bbox_bottom, props.bbox_right,
               props.bbox_top)
        else
          let lo := transformPt (minxbox, minybox)
          let hi := transformPt (maxxbox, maxybox)
          .ok (lo.1, lo.2, hi.1, hi.2)
    | _ => .error (.valueError "not enough values to unpack")
  else
    match getVal subsets props.x_axis_label, getVal subsets props.y_axis_label with
    | some xs, some ys =>
        match pyidx xs 0, pyidx xs 1, pyidx ys 0, pyidx ys 1 with
        | some minx, some maxx, some miny, some maxy =>
            .ok (minx, miny, maxx, maxy)
        | _, _, _, _ => .error .indexError
    | _, _ =>
        .ok (props.bbox_left, props.bbox_bottom, props.bbox_right,
             props.bbox_top)

/-- The dc.load keyword arguments built by query from the resolved
window; measurements is set only for a non-empty band request. -/
def mkLoadParams (props : CoverageProps) (crs_obj : CRSObj)
    (bands : List String) (minx miny maxx maxy : ℚ) : LoadParams :=
  { crs := "epsg:" ++ toString crs_obj.epsg
    align := (|props.resy / 2|, |props.resx / 2|)
    x := (minx, maxx)
    y := (miny, maxy)
    measurements := if 0 < bands.length then some bands else none }

/-- dataset.time.attrs.pop with the units key: remove that key from the
time attribute dict. -/
def popTimeUnits (ds : XDataset) : XDataset :=
  { ds with time_attrs := ds.time_attrs.filter (fun kv => kv.1 ≠ "units") }

/-- The out_meta dict: resolved bbox, window size derived from window and
resolution (float division, then absolute value), selected bands, and
the provider options merged in. -/
def mkOutMeta (props : CoverageProps) (options : Option (List (String × String)))
    (bands : List String) (minx miny maxx maxy : ℚ) : Except PyErr OutMeta :=
  match pydiv (maxx - minx) props.resx with
  | .error e => .error e
  | .ok w =>
      match pydiv (maxy - miny) props.resy with
      | .error e => .error e
      | .ok h =>
          .ok { bbox := [minx, miny, maxx, maxy]
                width := |w|
                height := |h|
                bands := bands
                extra := options.getD [] }

/-- The parameters loop of gen_covjson: for each selected band, read the
variable (KeyError when absent) and its units attribute (KeyError when
absent), then assign the parameter entry into the dict. This loop runs
outside the try block of the source. -/
def buildParams (ds : XDataset) :
    List String → List (String × ParamEntry) →
    Except PyErr (List (String × ParamEntry))
  | [], acc => .ok acc
  | bs :: rest, acc =>
      match getVal ds.vars bs with
      | none => .error (.keyError bs)
      | some arr =>
          match getVal arr.attrs "units" with
          | none => .error (.keyError "units")
          | some u =>
              buildParams ds rest
                (dictInsert acc bs
                  { description := bs, unit_symbol := u,
                    obs_id := bs, obs_label_en := bs })

/-- The ranges loop of gen_covjson: for each parameters key, an NdArray
entry with the dtype of the variable, axis names y then x, the shape
from the out_meta height and width, and the values flattened from the
stored array. -/
def buildRanges (ds : XDataset) (md : OutMeta) :
    List String → List (String × RangeEntry) →
    Except PyErr (List (String × RangeEntry))
  | [], acc => .ok acc
  | k :: rest, acc =>
      match getVal ds.vars k with
      | none => .error (.keyError k)
      | some arr =>
          buildRanges ds md rest
            (dictInsert acc k
              { dataType := arr.dtype, axisNames := ["y", "x"],
                shape := [md.height, md.width], values := arr.flat })

/-- gen_covjson: unpack the out_meta bbox, build the domain, run the
parameters loop, then run the ranges loop inside a try block that turns
an IndexError into ProviderQueryError with the invalid-parameter
message; every other exception propagates unchanged. -/
def gen_covjson (props : CoverageProps) (md : OutMeta) (ds : XDataset) :
    Except PyErr CovJSON :=
  match md.bbox with
  | [minx, miny, maxx, maxy] =>
      match buildParams ds md.bands [] with
      | .error e => .error e
      | .ok params =>
          match buildRanges ds md (keysOf params) [] with
          | .error .indexError => .error (.providerQueryError "Invalid query parameter")
          | .error e => .error e
          | .ok ranges =>
              .ok { typ := "Coverage"
                    domainType := "Grid"
                    axis_x := ⟨minx, maxx, md.width⟩
                    axis_y := ⟨miny, maxy, md.height⟩
                    ref_coordinates := ["x", "y"]
                    ref_type := props.crs_type
                    ref_id := props.crs_uri
                    parameters := params
                    ranges := ranges }
  | _ => .error (.valueError "not enough values to unpack")

/-- The six individual transform indexings of the GeoTIFF branch: they
all succeed exactly when the stored transform has at least six
coefficients, and produce the first six. -/
def transform6 : List ℚ → Option (List ℚ)
  | a :: b :: c :: d :: e :: f :: _ => some [a, b, c, d, e, f]
  | _ => none

/-- dataset.squeeze with the time dimension and drop: succeeds only when
the time dimension has length one, otherwise raises ValueError. -/
def squeezeTime (ds : XDataset) : Except PyErr XDataset :=
  if ds.time_len = 1 then .ok ds
  else .error (.valueError "cannot select a dimension to squeeze out which has length greater than one")

/-- The band stacking comprehension of the GeoTIFF branch: read each
requested band of the squeezed dataset, collecting the flattened
arrays in band order. -/
def stackBands (ds : XDataset) : List String → Except PyErr (List (List ℚ))
  | [] => .ok []
  | b :: rest =>
      match getVal ds.vars b with
      | none => .error (.keyError b)
      | some arr =>
          match stackBands ds rest with
          | .error e => .error e
          | .ok tail => .ok (arr.flat :: tail)

/-- The GeoTIFF branch of query: extend out_meta with driver, CRS code,
dtype and nodata of the first measurement dict, band count and the
stored affine transform, then write the stacked single-time-slice band
data into the in-memory raster. An empty band list makes np.stack raise
ValueError; with bands present the squeeze of the comprehension is
evaluated first. -/
def encodeGeotiff (props : CoverageProps) (crs_obj : CRSObj)
    (meas : List MeasProps) (md : OutMeta) (bands : List String)
    (ds : XDataset) : Except PyErr GeoTiff :=
  match pyidx meas 0 with
  | none => .error .indexError
  | some m0 =>
      match transform6 props.transform with
      | none => .error .indexError
      | some t6 =>
          match bands with
          | [] => .error (.valueError "need at least one array to stack")
          | _ =>
              match squeezeTime ds with
              | .error e => .error e
              | .ok sq =>
                  match stackBands sq bands with
                  | .error e => .error e
                  | .ok datas =>
                      .ok { driver := "GTiff"
                            crs := crs_obj.epsg
                            dtype := m0.dtype
                            nodata := m0.nodata
                            count := bands.length
                            transform := t6
                            width := md.width
                            height := md.height
                            bbox := md.bbox
                            data := datas }

/-- The Python str.lower method, mapping every character to lower
case. -/
def pylower (s : String) : String := ⟨s.data.map Char.toLower⟩

/-- The band-defaulting step of query: when no bands were requested, all
bands of the loaded dataset are selected, in their stored order. -/
def selBands (range_subset : List String) (ds : XDataset) : List String :=
  if range_subset.length = 0 then keysOf ds.vars else range_subset

/-- query: resolve the spatial subset, invoke the loader, pop the time
units attribute, default the band list, build out_meta, and dispatch on
the requested format. The second component counts how many times the
external loader was invoked. -/
def query (props : CoverageProps) (crs_obj : CRSObj) (meas : List MeasProps)
    (options : Option (List (String × String)))
    (transformPt : ℚ × ℚ → ℚ × ℚ) (loader : LoadParams → XDataset)
    (range_subset : List String) (subsets : List (String × List ℚ))
    (bbox : List ℚ) (format_ : String) :
    Except PyErr QueryOutput × Nat :=
  match resolve_spatial_subset props crs_obj transformPt subsets bbox with
  | .error e => (.error e, 0)
  | .ok (minx, miny, maxx, maxy) =>
      let params := mkLoadParams props crs_obj range_subset minx miny maxx maxy
      let dataset := popTimeUnits (loader params)
      let bands := selBands range_subset dataset
      match mkOutMeta props options bands minx miny maxx maxy with
      | .error e => (.error e, 1)
      | .ok md =>
          if format_ = "json" then
            match gen_covjson props md dataset with
            | .error e => (.error e, 1)
            | .ok cj => (.ok (.covjson cj), 1)
          else if pylower format_ = "geotiff" then
            match encodeGeotiff props crs_obj meas md bands dataset with
            | .error e => (.error e, 1)
            | .ok g => (.ok (.geotiff g), 1)
          else
            (.ok (.netcdf dataset), 1)

/-! Concrete sample inputs used by the witnesses and counterexamples. -/

/-- A geographic CRS equal to the fixed query bbox CRS. -/
def sampleCrsGeo : CRSObj := ⟨4326, false, ["deg"]⟩

/-- A band without a units attribute. -/
def noUnitsArr : DataArray := ⟨[7], [], "uint8"⟩

/-- A loaded dataset whose only band has no units attribute. -/
def noUnitsDataset : XDataset := ⟨[("B02", noUnitsArr)], 1, []⟩

/-- A band with two time slices of a 1 by 1 grid. -/
def twoSliceArr : DataArray := ⟨[7, 8], [("units", "m")], "uint8"⟩

/-- A loaded dataset whose time dimension has length two. -/
def twoSliceDataset : XDataset := ⟨[("B02", twoSliceArr)], 2, []⟩

/-- A loader oracle returning the two-time-slice dataset. -/
def twoSliceLoader : LoadParams → XDataset := fun _ => twoSliceDataset

/-- An out_meta dict selecting the single band over the full extent. -/
def mdSample : OutMeta := ⟨[0, 0, 180, 90], 720, 360, ["B02"], []⟩

/-- An out_meta dict for a 1 by 1 window. -/
def mdUnit : OutMeta := ⟨[0, 0, 1, 1], 1, 1, ["B02"], []⟩

/-- The CoverageJSON document gen_covjson produces from mdUnit and the
sample dataset. -/
def mdUnitCJ : CovJSON :=
  { typ := "Coverage", domainType := "Grid",
    axis_x := ⟨0, 1, 1⟩, axis_y := ⟨0, 1, 1⟩,
    ref_coordinates := ["x", "y"], ref_type := "GeographicCRS",
    ref_id := "http://www.opengis.net/def/crs/OGC/1.3/CRS84",
    parameters := [("B02", ⟨"B02", "m", "B02", "B02"⟩)],
    ranges := [("B02", ⟨"uint8", ["y", "x"], [1, 1], [7]⟩)] }

/-- A resolved coverage properties dict for a geographic product with a
quarter-degree grid over the extent (0, 0, 180, 90). -/
def sampleProps : CoverageProps :=
  { bbox_left := 0, bbox_bottom := 0, bbox_right := 180, bbox_top := 90
    crs_uri := "http://www.opengis.net/def/crs/OGC/1.3/CRS84"
    crs_type := "GeographicCRS"
    bbox_units := "deg"
    x_axis_label := "Lon", y_axis_label := "Lat"
    width := 720, height := 360
    resx := 1/4, resy := -(1/4)
    transform := [1/4, 0, 0, 0, -(1/4), 90]
    num_bands := 1
    axes := ["Lon", "Lat"] }

/-- A one-value band with a units attribute. -/
def sampleArr : DataArray := ⟨[7], [("units", "m")], "uint8"⟩

/-- A loaded dataset with one band and a single time slice. -/
def sampleDataset : XDataset :=
  ⟨[("B02", sampleArr)], 1, [("units", "seconds since 1970")]⟩

/-- A loader oracle returning the sample dataset for every request. -/
def sampleLoader : LoadParams → XDataset := fun _ => sampleDataset

/-- The CoverageJSON document of the sample json query run. -/
def sampleCJ : CovJSON :=
  { typ := "Coverage", domainType := "Grid",
    axis_x := ⟨0, 180, 720⟩, axis_y := ⟨0, 90, 360⟩,
    ref_coordinates := ["x", "y"], ref_type := "GeographicCRS",
    ref_id := "http://www.opengis.net/def/crs/OGC/1.3/CRS84",
    parameters := [("B02", ⟨"B02", "m", "B02", "B02"⟩)],
    ranges := [("B02", ⟨"uint8", ["y", "x"], [360, 720], [7]⟩)] }

/-- The raster of the sample GeoTIFF query run. -/
def sampleTiff : GeoTiff :=
  { driver := "GTiff", crs := 4326, dtype := "uint8", nodata := 0, count := 1,
    transform := [1/4, 0, 0, 0, -(1/4), 90], width := 720, height := 360,
    bbox := [0, 0, 180, 90], data := [[7]] }

/-- Product metadata with neither resolution nor CRS, deferring both to
the dataset level. -/
def pmW : ProductMetadata := ⟨none, none⟩

/-- A dataset record carrying the sample bounds, CRS and transform. -/
def recW : DatasetRecord := ⟨⟨0, 0, 180, 90⟩, sampleCrsGeo, [1/4, 0, 0, 0, -(1/4), 90]⟩

/-- The measurement properties of the sample product. -/
def sampleMeas : List MeasProps := [⟨1, "B02", "uint8", 0, "m", none⟩]

/-! Result extractors used to state theorems about successful runs. -/

/-- Whether an embedded Python computation completed without raising. -/
def exOk {α : Type} : Except PyErr α → Bool
  | .ok _ => true
  | .error _ => false

/-- A placeholder CoverageJSON document for the error case of getCov. -/
def dfltCov : CovJSON := ⟨"", "", ⟨0, 0, 0⟩, ⟨0, 0, 0⟩, [], "", "", [], []⟩

/-- The CoverageJSON document of a successful gen_covjson run. -/
def getCov : Except PyErr CovJSON → CovJSON
  | .ok c => c
  | .error _ => dfltCov

/-- Whether a query produced a CoverageJSON output. -/
def covjsonOk : Except PyErr QueryOutput → Bool
  | .ok (.covjson _) => true
  | _ => false

/-- The CoverageJSON document of a query that produced one. -/
def covjsonOutD : Except PyErr QueryOutput → CovJSON
  | .ok (.covjson cj) => cj
  | _ => dfltCov

/-- A placeholder raster for the error case of geotiffOutD. -/
def dfltTiff : GeoTiff := ⟨"", 0, "", 0, 0, [], 0, 0, [], []⟩

/-- Whether a query produced a GeoTIFF output. -/
def geotiffOk : Except PyErr QueryOutput → Bool
  | .ok (.geotiff _) => true
  | _ => false

/-- The raster of a query that produced a GeoTIFF output. -/
def geotiffOutD : Except PyErr QueryOutput → GeoTiff
  | .ok (.geotiff g) => g
  | _ => dfltTiff

/-- A placeholder properties dict for the error case of getCovProps. -/
def dfltProps : CoverageProps :=
  ⟨0, 0, 0, 0, "", "", "", "", "", 0, 0, 0, 0, [], 0, []⟩

/-- The result of a successful _get_coverage_properties run. -/
def getCovProps : Except PyErr (CoverageProps × CRSObj) → CoverageProps × CRSObj
  | .ok p => p
  | .error _ => (dfltProps, ⟨0, false, []⟩)

theorem exOk_eq_ok {α : Type} (e : Except PyErr α) (f : Except PyErr α → α)
    (h : exOk e = true) (hf : ∀ a, f (.ok a) = a) : e = .ok (f e) := by
  cases e with
  | ok a => rw [hf]
  | error _ => simp [exOk] at h

/-! Association-list dictionary lemmas. -/

@[simp] theorem keysOf_nil {α : Type} : keysOf ([] : List (String × α)) = [] := rfl

@[simp] theorem keysOf_cons {α : Type} (k : String) (v : α) (l : List (String × α)) :
    keysOf ((k, v) :: l) = k :: keysOf l := rfl

@[simp] theorem getVal_nil {α : Type} (k : String) :
    getVal ([] : List (String × α)) k = none := rfl

theorem getVal_cons {α : Type} (k0 : String) (v0 : α) (tl : List (String × α))
    (k : String) :
    getVal ((k0, v0) :: tl) k = if k0 = k then some v0 else getVal tl k := rfl

@[simp] theorem dictInsert_nil {α : Type} (k : String) (v : α) :
    dictInsert [] k v = [(k, v)] := rfl

theorem dictInsert_cons {α : Type} (k0 : String) (v0 : α) (tl : List (String × α))
    (k : String) (v : α) :
    dictInsert ((k0, v0) :: tl) k v =
      if k0 = k then (k, v) :: tl else (k0, v0) :: dictInsert tl k v := rfl

theorem getVal_dictInsert_self {α : Type} (l : List (String × α)) (k : String) (v : α) :
    getVal (dictInsert l k v) k = some v := by
  induction l with
  | nil => rw [dictInsert_nil, getVal_cons, if_pos rfl]
  | cons hd tl ih =>
      obtain ⟨k0, v0⟩ := hd
      rw [dictInsert_cons]
      by_cases h : k0 = k
      · rw [if_pos h, getVal_cons, if_pos rfl]
      · rw [if_neg h, getVal_cons, if_neg h, ih]

theorem getVal_dictInsert_ne {α : Type} (l : List (String × α)) (k b : String) (v : α)
    (h : b ≠ k) : getVal (dictInsert l k v) b = getVal l b := by
  induction l with
  | nil => rw [dictInsert_nil, getVal_cons, if_neg (Ne.symm h), getVal_nil]
  | cons hd tl ih =>
      obtain ⟨k0, v0⟩ := hd
      rw [dictInsert_cons]
      by_cases h0 : k0 = k
      · subst h0
        rw [if_pos rfl, getVal_cons, if_neg (Ne.symm h), getVal_cons,
            if_neg (Ne.symm h)]
      · rw [if_neg h0, getVal_cons, getVal_cons, ih]

theorem mem_keysOf_dictInsert {α : Type} (l : List (String × α)) (k b : String) (v : α) :
    b ∈ keysOf (dictInsert l k v) ↔ b ∈ keysOf l ∨ b = k := by
  induction l with
  | nil => simp
  | cons hd tl ih =>
      obtain ⟨k0, v0⟩ := hd
      rw [dictInsert_cons]
      by_cases h : k0 = k
      · subst h
        rw [if_pos rfl]
        simp only [keysOf_cons, List.mem_cons]
        tauto
      · rw [if_neg h]
        simp only [keysOf_cons, List.mem_cons, ih]
        tauto

theorem nodup_keysOf_dictInsert {α : Type} (l : List (String × α)) (k : String) (v : α)
    (h : (keysOf l).Nodup) : (keysOf (dictInsert l k v)).Nodup := by
  induction l with
  | nil => simp
  | cons hd tl ih =>
      obtain ⟨k0, v0⟩ := hd
      simp only [keysOf_cons, List.nodup_cons] at h
      rw [dictInsert_cons]
      by_cases hk : k0 = k
      · subst hk
        rw [if_pos rfl]
        simp only [keysOf_cons, List.nodup_cons]
        exact h
      · rw [if_neg hk]
        simp only [keysOf_cons, List.nodup_cons]
        refine ⟨?_, ih h.2⟩
        rw [mem_keysOf_dictInsert]
        push_neg
        exact ⟨h.1, hk⟩

/-! Structure lemmas for the CoverageJSON encoder loops. -/

theorem buildParams_mem (ds : XDataset) :
    ∀ (bands : List String) (acc res : List (String × ParamEntry)),
      buildParams ds bands acc = .ok res →
      ∀ b, b ∈ keysOf res ↔ (b ∈ keysOf acc ∨ b ∈ bands)
  | [], acc, res, h, b => by
      simp only [buildParams, Except.ok.injEq] at h
      subst h
      simp
  | bs :: rest, acc, res, h, b => by
      cases harr : getVal ds.vars bs with
      | none => simp [buildParams, harr] at h
      | some arr =>
          cases hu : getVal arr.attrs "units" with
          | none => simp [buildParams, harr, hu] at h
          | some u =>
              simp only [buildParams, harr, hu] at h
              have hrec := buildParams_mem ds rest _ res h b
              rw [hrec, mem_keysOf_dictInsert]
              simp only [List.mem_cons]
              tauto

theorem buildParams_nodup (ds : XDataset) :
    ∀ (bands : List String) (acc res : List (String × ParamEntry)),
      (keysOf acc).Nodup → buildParams ds bands acc = .ok res →
      (keysOf res).Nodup
  | [], acc, res, hnd, h => by
      simp only [buildParams, Except.ok.injEq] at h
      subst h
      exact hnd
  | bs :: rest, acc, res, hnd, h => by
      cases harr : getVal ds.vars bs with
      | none => simp [buildParams, harr] at h
      | some arr =>
          cases hu : getVal arr.attrs "units" with
          | none => simp [buildParams, harr, hu] at h
          | some u =>
              simp only [buildParams, harr, hu] at h
              exact buildParams_nodup ds rest _ res
                (nodup_keysOf_dictInsert _ _ _ hnd) h

theorem buildRanges_mem (ds : XDataset) (md : OutMeta) :
    ∀ (ks : List String) (acc res : List (String × RangeEntry)),
      buildRanges ds md ks acc = .ok res →
      ∀ b, b ∈ keysOf res ↔ (b ∈ keysOf acc ∨ b ∈ ks)
  | [], acc, res, h, b => by
      simp only [buildRanges, Except.ok.injEq] at h
      subst h
      simp
  | k :: rest, acc, res, h, b => by
      cases harr : getVal ds.vars k with
      | none => simp [buildRanges, harr] at h
      | some arr =>
          simp only [buildRanges, harr] at h
          have hrec := buildRanges_mem ds md rest _ res h b
          rw [hrec, mem_keysOf_dictInsert]
          simp only [List.mem_cons]
          tauto

theorem buildRanges_frame (ds : XDataset) (md : OutMeta) :
    ∀ (ks : List String) (acc res : List (String × RangeEntry)),
      buildRanges ds md ks acc = .ok res →
      ∀ b, b ∉ ks → getVal res b = getVal acc b
  | [], acc, res, h, b, _ => by
      simp only [buildRanges, Except.ok.injEq] at h
      subst h
      rfl
  | k :: rest, acc, res, h, b, hb => by
      cases harr : getVal ds.vars k with
      | none => simp [buildRanges, harr] at h
      | some arr =>
          simp only [buildRanges, harr] at h
          have hne : b ≠ k := fun hc => hb (hc ▸ List.mem_cons_self k rest)
          have hnr : b ∉ rest := fun hc => hb (List.mem_cons_of_mem _ hc)
          rw [buildRanges_frame ds md rest _ res h b hnr,
              getVal_dictInsert_ne _ _ _ _ hne]

theorem buildRanges_lookup (ds : XDataset) (md : OutMeta) :
    ∀ (ks : List String) (acc res : List (String × RangeEntry)),
      ks.Nodup → buildRanges ds md ks acc = .ok res →
      ∀ b ∈ ks, ∃ arr, getVal ds.vars b = some arr ∧
        getVal res b = some { dataType := arr.dtype, axisNames := ["y", "x"],
                              shape := [md.height, md.width], values := arr.flat }
  | [], acc, res, _, _, b, hb => by simp at hb
  | k :: rest, acc, res, hnd, h, b, hb => by
      cases harr : getVal ds.vars k with
      | none => simp [buildRanges, harr] at h
      | some arr =>
          simp only [buildRanges, harr] at h
          simp only [List.nodup_cons] at hnd
          rcases List.mem_cons.mp hb with rfl | hbr
          · refine ⟨arr, harr, ?_⟩
            rw [buildRanges_frame ds md rest _ res h b hnd.1,
                getVal_dictInsert_self]
          · exact buildRanges_lookup ds md rest _ res hnd.2 h b hbr

/-- Structure of every successfully produced CoverageJSON document: the
parameters keys are exactly the selected bands, the ranges keys are
exactly the parameters keys, and every selected band has a ranges entry
holding the flattened values of its stored array. -/
theorem gen_covjson_ok_parts (props : CoverageProps) (md : OutMeta)
    (ds : XDataset) (cj : CovJSON) (h : gen_covjson props md ds = .ok cj) :
    (∀ b, b ∈ keysOf cj.parameters ↔ b ∈ md.bands) ∧
    (∀ b, b ∈ keysOf cj.ranges ↔ b ∈ keysOf cj.parameters) ∧
    (∀ b ∈ md.bands, ∃ arr, getVal ds.vars b = some arr ∧
      getVal cj.ranges b = some { dataType := arr.dtype, axisNames := ["y", "x"],
                                  shape := [md.height, md.width],
                                  values := arr.flat }) := by
  unfold gen_covjson at h
  split at h
  · split at h
    · simp at h
    · rename_i params hp
      split at h
      · simp at h
      · simp at h
      · rename_i ranges hr
        have hpmem := buildParams_mem ds md.bands [] params hp
        have hpnd := buildParams_nodup ds md.bands [] params (by simp) hp
        simp only [Except.ok.injEq] at h
        subst h
        refine ⟨?_, ?_, ?_⟩
        · intro b
          have hb := hpmem b
          simpa using hb
        · intro b
          have hb := buildRanges_mem ds md (keysOf params) [] ranges hr b
          simpa using hb
        · intro b hb
          have hbk : b ∈ keysOf params := by
            have hm := hpmem b
            simp at hm
            exact hm.mpr hb
          exact buildRanges_lookup ds md (keysOf params) [] ranges hpnd hr b hbk
  · simp at h

/-! Claim theorems. -/

/-- C1 (code bug): with a native CRS equal to EPSG 4326 and a non-empty
4-number bbox, the resolved window is NOT the input bbox: the source
logs the equal-CRS case but never assigns the unpacked bbox values, so
the window keeps the full collection extent. Evaluated at the failing
input bbox [10, 40, 20, 50] over a descriptor with full extent
(0, 0, 180, 90). -/
theorem bbox_ignored_when_native_crs_geographic :
    resolve_spatial_subset sampleProps sampleCrsGeo (fun p => p) []
      [10, 40, 20, 50] = .ok (0, 0, 180, 90) ∧
    ¬ (((0 : ℚ), (0 : ℚ), (180 : ℚ), (90 : ℚ)) =
       ((10 : ℚ), (40 : ℚ), (20 : ℚ), (50 : ℚ))) :=
  ⟨rfl, by decide⟩

/-- C2: whenever the subsets dict contains both native axis labels and
the bbox list is non-empty, query raises ProviderQueryError with the
exclusivity message and the external loader is never invoked (the load
call count is zero), for every loader and every format. -/
theorem bbox_and_axis_subsets_exclusive (props : CoverageProps)
    (crs_obj : CRSObj) (meas : List MeasProps)
    (options : Option (List (String × String)))
    (transformPt : ℚ × ℚ → ℚ × ℚ) (loader : LoadParams → XDataset)
    (range_subset : List String) (subsets : List (String × List ℚ))
    (bbox : List ℚ) (format_ : String)
    (hx : (getVal subsets props.x_axis_label).isSome = true)
    (hy : (getVal subsets props.y_axis_label).isSome = true)
    (hb : bbox ≠ []) :
    query props crs_obj meas options transformPt loader range_subset subsets
      bbox format_ =
      (.error (.providerQueryError "bbox and subsetting by coordinates are exclusive"), 0) := by
  have hlen : 0 < bbox.length := List.length_pos.mpr hb
  unfold query resolve_spatial_subset
  rw [if_pos ⟨hx, hy, hlen⟩]

/-- Witness for C2, at the scenario of the specification: axis subsets
for Lon and Lat together with a non-empty bbox. -/
theorem bbox_and_axis_subsets_exclusive_witness :
    (getVal [("Lon", [(10 : ℚ), 10]), ("Lat", [40, 40])]
       sampleProps.x_axis_label).isSome = true ∧
    (getVal [("Lon", [(10 : ℚ), 10]), ("Lat", [40, 40])]
       sampleProps.y_axis_label).isSome = true ∧
    ([(10 : ℚ), 40, 20, 50] ≠ ([] : List ℚ)) ∧
    query sampleProps sampleCrsGeo sampleMeas none (fun p => p) sampleLoader
      [] [("Lon", [10, 10]), ("Lat", [40, 40])] [10, 40, 20, 50] "json" =
      (.error (.providerQueryError "bbox and subsetting by coordinates are exclusive"), 0) :=
  ⟨rfl, rfl, by decide,
   bbox_and_axis_subsets_exclusive sampleProps sampleCrsGeo sampleMeas none
     (fun p => p) sampleLoader [] [("Lon", [10, 10]), ("Lat", [40, 40])]
     [10, 40, 20, 50] "json" rfl rfl (by decide)⟩

theorem buildParams_missing_units (ds : XDataset) :
    ∀ (bands : List String) (acc : List (String × ParamEntry)),
      (∀ b ∈ bands, (getVal ds.vars b).isSome = true) →
      (∃ b, b ∈ bands ∧ ∃ arr, getVal ds.vars b = some arr ∧
         getVal arr.attrs "units" = none) →
      buildParams ds bands acc = .error (.keyError "units")
  | [], _, _, hex => by
      obtain ⟨b, hb, _⟩ := hex
      simp at hb
  | bs :: rest, acc, hall, hex => by
      have hbs := hall bs (List.mem_cons_self bs rest)
      obtain ⟨arr0, harr0⟩ := Option.isSome_iff_exists.mp hbs
      cases hu : getVal arr0.attrs "units" with
      | none => simp [buildParams, harr0, hu]
      | some u =>
          simp only [buildParams, harr0, hu]
          obtain ⟨b, hbmem, arr, harr, hnone⟩ := hex
          rcases List.mem_cons.mp hbmem with rfl | hbrest
          · rw [harr0] at harr
            cases harr
            rw [hu] at hnone
            simp at hnone
          · exact buildParams_missing_units ds rest _
              (fun b2 hb2 => hall b2 (List.mem_cons_of_mem _ hb2))
              ⟨b, hbrest, arr, harr, hnone⟩

/-- C3 (counterexample): a selected band without a units attribute makes
gen_covjson raise an uncaught KeyError, not the ProviderQueryError with
the invalid-parameter message the claim requires: the units read runs in
the parameters loop, outside the try block, and the handler catches only
IndexError. -/
theorem missing_units_attribute_keyerror_cex :
    gen_covjson sampleProps mdSample noUnitsDataset =
      .error (.keyError "units") ∧
    (Except.error (PyErr.keyError "units") ≠
      (Except.error (PyErr.providerQueryError "Invalid query parameter") :
        Except PyErr CovJSON)) :=
  ⟨rfl, by simp⟩

/-- C3 (amended): a missing units attribute on a requested band is read
while building the parameters entries, outside the protection of the try
block, and propagates as an uncaught KeyError on the units key; only an
IndexError raised inside the ranges loop is converted to the
ProviderQueryError with the invalid-parameter message. -/
theorem missing_units_uncaught_keyerror (props : CoverageProps) (md : OutMeta)
    (ds : XDataset) (minx miny maxx maxy : ℚ)
    (hbb : md.bbox = [minx, miny, maxx, maxy])
    (hall : ∀ b ∈ md.bands, (getVal ds.vars b).isSome = true)
    (hmiss : ∃ b, b ∈ md.bands ∧ ∃ arr, getVal ds.vars b = some arr ∧
        getVal arr.attrs "units" = none) :
    gen_covjson props md ds = .error (.keyError "units") := by
  unfold gen_covjson
  rw [hbb, buildParams_missing_units ds md.bands [] hall hmiss]

/-- Witness for the amended C3 at a concrete dataset whose only band has
an empty attribute dict. -/
theorem missing_units_uncaught_keyerror_witness :
    mdSample.bbox = [(0 : ℚ), 0, 180, 90] ∧
    (∀ b ∈ mdSample.bands, (getVal noUnitsDataset.vars b).isSome = true) ∧
    (∃ b, b ∈ mdSample.bands ∧ ∃ arr, getVal noUnitsDataset.vars b = some arr ∧
        getVal arr.attrs "units" = none) ∧
    gen_covjson sampleProps mdSample noUnitsDataset =
      .error (.keyError "units") :=
  ⟨rfl, by decide, ⟨"B02", by decide, noUnitsArr, rfl, rfl⟩,
   missing_units_uncaught_keyerror sampleProps mdSample noUnitsDataset
     0 0 180 90 rfl (by decide) ⟨"B02", by decide, noUnitsArr, rfl, rfl⟩⟩

/-- C5 (counterexample): a GeoTIFF query over a dataset with two time
slices does not complete by silently writing the first slice; the
squeeze of the time dimension raises ValueError and the query fails. -/
theorem geotiff_multi_slice_errors_cex :
    query sampleProps sampleCrsGeo sampleMeas none (fun p => p)
      twoSliceLoader ["B02"] [] [] "geotiff" =
      (.error (.valueError "cannot select a dimension to squeeze out which has length greater than one"), 1) := by
  norm_num [query, resolve_spatial_subset, getVal, selBands, mkLoadParams,
    popTimeUnits, keysOf, mkOutMeta, pydiv, pyidx, encodeGeotiff, transform6,
    squeezeTime, stackBands, pylower, sampleProps, sampleCrsGeo, sampleMeas,
    twoSliceLoader, twoSliceDataset, twoSliceArr]
  rw [if_neg (by decide), if_pos (by decide)]

theorem transform6_of_len : ∀ (l : List ℚ), 6 ≤ l.length →
    transform6 l = some (l.take 6)
  | [], h => by simp at h
  | [_], h => by simp at h
  | [_, _], h => by simp at h
  | [_, _, _], h => by simp at h
  | [_, _, _, _], h => by simp at h
  | [_, _, _, _, _], h => by simp at h
  | _ :: _ :: _ :: _ :: _ :: _ :: _, _ => rfl

theorem transform6_take : ∀ (l t : List ℚ), transform6 l = some t → t = l.take 6
  | [], t, h => by simp [transform6] at h
  | [_], t, h => by simp [transform6] at h
  | [_, _], t, h => by simp [transform6] at h
  | [_, _, _], t, h => by simp [transform6] at h
  | [_, _, _, _], t, h => by simp [transform6] at h
  | [_, _, _, _, _], t, h => by simp [transform6] at h
  | a :: b :: c :: d :: e :: f :: rest, t, h => by
      simp only [transform6, Option.some.injEq] at h
      subst h
      rfl

theorem stackBands_ok_of_all (ds : XDataset) :
    ∀ (bands : List String),
      (∀ b ∈ bands, (getVal ds.vars b).isSome = true) →
      ∃ datas, stackBands ds bands = .ok datas ∧
        List.Forall₂ (fun b row => ∃ arr, getVal ds.vars b = some arr ∧
          arr.flat = row) bands datas
  | [], _ => ⟨[], rfl, List.Forall₂.nil⟩
  | b :: rest, hall => by
      obtain ⟨arr, harr⟩ :=
        Option.isSome_iff_exists.mp (hall b (List.mem_cons_self b rest))
      obtain ⟨tail, htail, hf⟩ := stackBands_ok_of_all ds rest
        (fun x hx => hall x (List.mem_cons_of_mem _ hx))
      refine ⟨arr.flat :: tail, ?_, List.Forall₂.cons ⟨arr, harr, rfl⟩ hf⟩
      simp only [stackBands, harr, htail]

theorem length_flatten_const {α : Type} : ∀ (grid : List (List α)) (w : Nat),
    (∀ row ∈ grid, row.length = w) → grid.flatten.length = grid.length * w
  | [], w, _ => by simp
  | r :: rest, w, h => by
      simp only [List.flatten_cons, List.length_append, List.length_cons]
      rw [h r (List.mem_cons_self r rest),
          length_flatten_const rest w (fun x hx => h x (List.mem_cons_of_mem _ hx))]
      ring

/-- C5 (amended): the GeoTIFF encoder completes and writes each band
when the loaded dataset has exactly one time slice (given the first
measurement dict, the six transform coefficients and the requested bands
all resolve); when the time dimension has a length other than one, the
squeeze of the time dimension raises ValueError instead of silently
choosing a slice. -/
theorem geotiff_single_time_slice (props : CoverageProps) (crs_obj : CRSObj)
    (meas : List MeasProps) (md : OutMeta) (bands : List String) (ds : XDataset)
    (hm : meas ≠ []) (ht : 6 ≤ props.transform.length) (hbands : bands ≠ [])
    (hall : ∀ b ∈ bands, (getVal ds.vars b).isSome = true) :
    (ds.time_len = 1 →
      ∃ g, encodeGeotiff props crs_obj meas md bands ds = .ok g ∧
        List.Forall₂ (fun b row => ∃ arr, getVal ds.vars b = some arr ∧
          arr.flat = row) bands g.data) ∧
    (ds.time_len ≠ 1 →
      encodeGeotiff props crs_obj meas md bands ds =
        .error (.valueError "cannot select a dimension to squeeze out which has length greater than one")) := by
  have ht6 := transform6_of_len props.transform ht
  cases meas with
  | nil => cases hm rfl
  | cons m0 mrest =>
      cases bands with
      | nil => cases hbands rfl
      | cons b0 brest =>
          constructor
          · intro h1
            obtain ⟨datas, hst, hf⟩ := stackBands_ok_of_all ds (b0 :: brest) hall
            refine ⟨{ driver := "GTiff", crs := crs_obj.epsg, dtype := m0.dtype,
                      nodata := m0.nodata, count := (b0 :: brest).length,
                      transform := props.transform.take 6, width := md.width,
                      height := md.height, bbox := md.bbox, data := datas },
                    ?_, hf⟩
            simp only [encodeGeotiff, pyidx, ht6, squeezeTime, if_pos h1, hst]
          · intro h1
            simp only [encodeGeotiff, pyidx, ht6, squeezeTime, if_neg h1]

/-- Witness for the amended C5 at the sample single-time-slice run. -/
theorem geotiff_single_time_slice_witness :
    (sampleMeas ≠ []) ∧ 6 ≤ sampleProps.transform.length ∧
    (["B02"] ≠ ([] : List String)) ∧
    (∀ b ∈ ["B02"], (getVal sampleDataset.vars b).isSome = true) ∧
    ((sampleDataset.time_len = 1 →
        ∃ g, encodeGeotiff sampleProps sampleCrsGeo sampleMeas mdSample
          ["B02"] sampleDataset = .ok g ∧
          List.Forall₂ (fun b row => ∃ arr, getVal sampleDataset.vars b = some arr ∧
            arr.flat = row) ["B02"] g.data) ∧
     (sampleDataset.time_len ≠ 1 →
        encodeGeotiff sampleProps sampleCrsGeo sampleMeas mdSample
          ["B02"] sampleDataset =
          .error (.valueError "cannot select a dimension to squeeze out which has length greater than one"))) :=
  ⟨by decide, by decide, by decide, by decide,
   geotiff_single_time_slice sampleProps sampleCrsGeo sampleMeas mdSample
     ["B02"] sampleDataset (by decide) (by decide) (by decide) (by decide)⟩

/-- C4 (counterexample): the encoder flattens every stored dimension, so
a band with two time slices of a 1 by 1 grid yields a produced document
whose values list has length 2 while shape[0] times shape[1] is 1. -/
theorem covjson_values_length_mismatch_cex :
    exOk (gen_covjson sampleProps mdUnit twoSliceDataset) = true ∧
    getVal (getCov (gen_covjson sampleProps mdUnit twoSliceDataset)).ranges
      "B02" = some { dataType := "uint8", axisNames := ["y", "x"],
                     shape := [1, 1], values := [7, 8] } ∧
    ¬ (([(7 : ℚ), 8].length : ℚ) = (1 : ℚ) * 1) :=
  ⟨rfl, rfl, by norm_num⟩

/-- C4 (amended): for every produced document and every selected band
whose stored array is two dimensional, the values list is the row-major
flattening of its rows (y outer, x inner), and its length equals the
row count times the row width; when the out_meta height and width agree
with those grid dimensions, the length equals shape[0] times shape[1]. -/
theorem covjson_values_rowmajor_when_2d (props : CoverageProps) (md : OutMeta)
    (ds : XDataset) (b : String) (arr : DataArray) (grid : List (List ℚ))
    (w : Nat) (cj : CovJSON)
    (hok : gen_covjson props md ds = .ok cj)
    (hb : b ∈ md.bands) (ha : getVal ds.vars b = some arr)
    (hflat : arr.flat = grid.flatten)
    (hrows : ∀ row ∈ grid, row.length = w) :
    ∃ r, getVal cj.ranges b = some r ∧
      r.values = grid.flatten ∧
      r.shape = [md.height, md.width] ∧
      r.values.length = grid.length * w ∧
      (md.height = (grid.length : ℚ) → md.width = (w : ℚ) →
        ((r.values.length : ℚ) = md.height * md.width)) := by
  obtain ⟨hpmem, hrmem, hlook⟩ := gen_covjson_ok_parts props md ds cj hok
  obtain ⟨arr2, ha2, hent⟩ := hlook b hb
  rw [ha] at ha2
  simp only [Option.some.injEq] at ha2
  subst ha2
  refine ⟨_, hent, ?_, rfl, ?_, ?_⟩
  · simpa using hflat
  · simpa [hflat] using length_flatten_const grid w hrows
  · intro hh hw
    have hl : (arr.flat.length : ℚ) = ((grid.length * w : Nat) : ℚ) := by
      rw [hflat, length_flatten_const grid w hrows]
    simp only [hl, hh, hw]
    push_cast
    ring

/-- Witness for the amended C4 at a 1 by 1 single-slice band. -/
theorem covjson_values_rowmajor_when_2d_witness :
    gen_covjson sampleProps mdUnit sampleDataset = .ok mdUnitCJ ∧
    "B02" ∈ mdUnit.bands ∧
    getVal sampleDataset.vars "B02" = some sampleArr ∧
    sampleArr.flat = [[(7 : ℚ)]].flatten ∧
    (∀ row ∈ [[(7 : ℚ)]], row.length = 1) ∧
    (∃ r, getVal mdUnitCJ.ranges "B02" = some r ∧
      r.values = [[(7 : ℚ)]].flatten ∧
      r.shape = [mdUnit.height, mdUnit.width] ∧
      r.values.length = [[(7 : ℚ)]].length * 1 ∧
      (mdUnit.height = (([[(7 : ℚ)]].length : Nat) : ℚ) →
        mdUnit.width = ((1 : Nat) : ℚ) →
        ((r.values.length : ℚ) = mdUnit.height * mdUnit.width))) :=
  ⟨rfl, by decide, rfl, rfl, by decide,
   covjson_values_rowmajor_when_2d sampleProps mdUnit sampleDataset "B02"
     sampleArr [[(7 : ℚ)]] 1 mdUnitCJ rfl (by decide) rfl rfl (by decide)⟩


theorem pydiv_ok (a b c : ℚ) (h : pydiv a b = .ok c) : c = a / b := by
  unfold pydiv at h
  split at h
  · simp at h
  · simp only [Except.ok.injEq] at h
    exact h.symm

theorem collectMeta_bounds : ∀ (recs : List DatasetRecord)
    (out : List BBoxQ × List CRSObj × List ℚ × List ℚ × List (List ℚ)),
    collectMeta recs = .ok out → out.1 = recs.map DatasetRecord.bounds
  | [], out, h => by
      simp only [collectMeta, Except.ok.injEq] at h
      subst h
      rfl
  | r :: rest, out, h => by
      cases h0 : pyidx r.transform 0 with
      | none => simp [collectMeta, h0] at h
      | some t0 =>
          cases h4 : pyidx r.transform 4 with
          | none => simp [collectMeta, h0, h4] at h
          | some t4 =>
              cases hrec : collectMeta rest with
              | error e => simp [collectMeta, h0, h4, hrec] at h
              | ok out2 =>
                  obtain ⟨bbs, crss, rxs, rys, ts⟩ := out2
                  have hb := collectMeta_bounds rest (bbs, crss, rxs, rys, ts) hrec
                  simp only [collectMeta, h0, h4, hrec, Except.ok.injEq] at h
                  subst h
                  simp only [List.map_cons]
                  rw [← hb]

/-- C6: every successfully resolved coverage properties dict satisfies
width = abs((bbox.right - bbox.left) / resx) and
height = abs((bbox.top - bbox.bottom) / resy) over its own bbox fields,
and that bbox is the union bounding box of all dataset bounds. -/
theorem coverage_props_width_height_invariant (pm : ProductMetadata)
    (recs : List DatasetRecord) (nb : Nat) (P : CoverageProps)
    (hok : exOk (get_coverage_properties pm recs nb) = true)
    (hP : P = (getCovProps (get_coverage_properties pm recs nb)).1) :
    P.width = |(P.bbox_right - P.bbox_left) / P.resx| ∧
    P.height = |(P.bbox_top - P.bbox_bottom) / P.resy| ∧
    P.bbox_left = (bbox_union (recs.map DatasetRecord.bounds)).left ∧
    P.bbox_bottom = (bbox_union (recs.map DatasetRecord.bounds)).bottom ∧
    P.bbox_right = (bbox_union (recs.map DatasetRecord.bounds)).right ∧
    P.bbox_top = (bbox_union (recs.map DatasetRecord.bounds)).top := by
  obtain ⟨pc, heq⟩ : ∃ pc, get_coverage_properties pm recs nb = .ok pc := by
    cases hcase : get_coverage_properties pm recs nb with
    | ok v => exact ⟨v, rfl⟩
    | error e => rw [hcase] at hok; simp [exOk] at hok
  rw [heq] at hP
  simp only [getCovProps] at hP
  unfold get_coverage_properties at heq
  split at heq
  · simp at heq
  · rename_i bbs crss rxs rys ts hcm
    have hbbs : bbs = List.map DatasetRecord.bounds recs :=
      collectMeta_bounds recs _ hcm
    split at heq
    · simp at heq
    · rename_i crs_obj hcrs
      split at heq
      · simp at heq
      · rename_i resx hrx
        split at heq
        · simp at heq
        · rename_i resy hry
          split at heq
          · simp at heq
          · rename_i transform htr
            cases hw : pydiv ((bbox_union bbs).right - (bbox_union bbs).left) resx with
            | error e => simp [hw] at heq
            | ok w =>
                cases hh : pydiv ((bbox_union bbs).top - (bbox_union bbs).bottom) resy with
                | error e => simp [hw, hh] at heq
                | ok h =>
                    simp only [hw, hh] at heq
                    have hwv := pydiv_ok _ _ _ hw
                    have hhv := pydiv_ok _ _ _ hh
                    subst hbbs
                    split at heq
                    · split at heq
                      · simp at heq
                      · rename_i u hu
                        simp only [Except.ok.injEq] at heq
                        subst heq
                        subst hP
                        subst hwv
                        subst hhv
                        exact ⟨rfl, rfl, rfl, rfl, rfl, rfl⟩
                    · simp only [Except.ok.injEq] at heq
                      subst heq
                      subst hP
                      subst hwv
                      subst hhv
                      exact ⟨rfl, rfl, rfl, rfl, rfl, rfl⟩

/-- Witness for C6 at a one-dataset product with quarter-degree
resolution taken from the dataset transform. -/
theorem coverage_props_width_height_invariant_witness :
    exOk (get_coverage_properties pmW [recW] 1) = true ∧
    ((getCovProps (get_coverage_properties pmW [recW] 1)).1.width =
      |((getCovProps (get_coverage_properties pmW [recW] 1)).1.bbox_right -
        (getCovProps (get_coverage_properties pmW [recW] 1)).1.bbox_left) /
        (getCovProps (get_coverage_properties pmW [recW] 1)).1.resx| ∧
     (getCovProps (get_coverage_properties pmW [recW] 1)).1.height =
      |((getCovProps (get_coverage_properties pmW [recW] 1)).1.bbox_top -
        (getCovProps (get_coverage_properties pmW [recW] 1)).1.bbox_bottom) /
        (getCovProps (get_coverage_properties pmW [recW] 1)).1.resy| ∧
     (getCovProps (get_coverage_properties pmW [recW] 1)).1.bbox_left =
      (bbox_union ([recW].map DatasetRecord.bounds)).left ∧
     (getCovProps (get_coverage_properties pmW [recW] 1)).1.bbox_bottom =
      (bbox_union ([recW].map DatasetRecord.bounds)).bottom ∧
     (getCovProps (get_coverage_properties pmW [recW] 1)).1.bbox_right =
      (bbox_union ([recW].map DatasetRecord.bounds)).right ∧
     (getCovProps (get_coverage_properties pmW [recW] 1)).1.bbox_top =
      (bbox_union ([recW].map DatasetRecord.bounds)).top) :=
  ⟨by norm_num [get_coverage_properties, collectMeta, bbox_union, pydiv, pyidx,
      exOk, pmW, recW, sampleCrsGeo],
   coverage_props_width_height_invariant pmW [recW] 1 _
     (by norm_num [get_coverage_properties, collectMeta, bbox_union, pydiv, pyidx,
        exOk, pmW, recW, sampleCrsGeo]) rfl⟩

/-- C9: construction is all or nothing: either the constructor fails
with a ProviderConnectionError wrapping the underlying cause, or it
returns an engine whose descriptors and derived fields are all resolved
from the normalization steps. -/
theorem init_all_or_nothing (pdef : ProviderDef) (pm : ProductMetadata)
    (recs : List DatasetRecord) (nb : Nat) (mm : List MeasRow) :
    (∃ cause, initEngine pdef pm recs nb mm =
        .error (.providerConnectionError cause)) ∨
    (∃ eng, initEngine pdef pm recs nb mm = .ok eng ∧
      get_coverage_properties pm recs nb = .ok (eng.props, eng.crs_obj) ∧
      eng.meas = get_measurement_properties mm ∧
      pdef.format_name = some eng.native_format ∧
      eng.crs = eng.props.crs_uri ∧
      eng.axes = eng.props.axes ∧
      eng.num_bands = eng.props.num_bands ∧
      eng.fields = (List.range eng.props.num_bands).map
        (fun n => toString (n + 1))) := by
  unfold initEngine
  cases hc : get_coverage_properties pm recs nb with
  | error e =>
      left
      exact ⟨e, rfl⟩
  | ok pc =>
      obtain ⟨props, crs_obj⟩ := pc
      cases hf : pdef.format_name with
      | none =>
          left
          exact ⟨.keyError "format", by simp [hf]⟩
      | some fmt =>
          right
          exact ⟨{ props := props, crs_obj := crs_obj,
                   meas := get_measurement_properties mm,
                   crs := props.crs_uri, axes := props.axes,
                   num_bands := props.num_bands,
                   fields := (List.range props.num_bands).map
                     (fun n => toString (n + 1)),
                   native_format := fmt },
                 rfl, rfl, rfl, rfl, rfl, rfl, rfl, rfl⟩

theorem selBands_of_ne (range_subset : List String) (ds : XDataset)
    (h : range_subset ≠ []) : selBands range_subset ds = range_subset := by
  unfold selBands
  rw [if_neg (by simpa using h)]

theorem selBands_of_nil (ds : XDataset) :
    selBands [] ds = keysOf ds.vars := rfl

theorem mkOutMeta_bands (props : CoverageProps)
    (options : Option (List (String × String))) (bands : List String)
    (minx miny maxx maxy : ℚ) (md : OutMeta)
    (h : mkOutMeta props options bands minx miny maxx maxy = .ok md) :
    md.bands = bands := by
  unfold mkOutMeta at h
  split at h
  · simp at h
  · split at h
    · simp at h
    · simp only [Except.ok.injEq] at h
      subst h
      rfl

theorem encodeGeotiff_ok_parts (props : CoverageProps) (crs_obj : CRSObj)
    (meas : List MeasProps) (md : OutMeta) (bands : List String)
    (ds : XDataset) (g : GeoTiff)
    (h : encodeGeotiff props crs_obj meas md bands ds = .ok g) :
    ∃ m0, pyidx meas 0 = some m0 ∧ g.driver = "GTiff" ∧ g.crs = crs_obj.epsg ∧
      g.dtype = m0.dtype ∧ g.nodata = m0.nodata ∧ g.count = bands.length ∧
      g.transform = props.transform.take 6 ∧ g.width = md.width ∧
      g.height = md.height ∧ g.bbox = md.bbox := by
  unfold encodeGeotiff at h
  split at h
  · simp at h
  · rename_i m0 hm0
    split at h
    · simp at h
    · rename_i t6 ht6
      split at h
      · simp at h
      · split at h
        · simp at h
        · rename_i sq hsq
          split at h
          · simp at h
          · rename_i datas hst
            simp only [Except.ok.injEq] at h
            subst h
            exact ⟨m0, hm0, rfl, rfl, rfl, rfl, rfl,
                   transform6_take _ _ ht6, rfl, rfl, rfl⟩

/-- Case analysis of every successful query run: the spatial subset
resolved, the loader ran exactly once, out_meta was built over the
selected bands, and the output came from the format dispatch. -/
theorem query_ok_cases (props : CoverageProps) (crs_obj : CRSObj)
    (meas : List MeasProps) (options : Option (List (String × String)))
    (transformPt : ℚ × ℚ → ℚ × ℚ) (loader : LoadParams → XDataset)
    (range_subset : List String) (subsets : List (String × List ℚ))
    (bbox : List ℚ) (format_ : String) (out : QueryOutput) (n : Nat)
    (h : query props crs_obj meas options transformPt loader range_subset
      subsets bbox format_ = (.ok out, n)) :
    ∃ minx miny maxx maxy md,
      resolve_spatial_subset props crs_obj transformPt subsets bbox =
        .ok (minx, miny, maxx, maxy) ∧ n = 1 ∧
      mkOutMeta props options
        (selBands range_subset (popTimeUnits (loader
          (mkLoadParams props crs_obj range_subset minx miny maxx maxy))))
        minx miny maxx maxy = .ok md ∧
      ((format_ = "json" ∧
        ∃ cj, gen_covjson props md (popTimeUnits (loader
            (mkLoadParams props crs_obj range_subset minx miny maxx maxy))) =
          .ok cj ∧ out = .covjson cj) ∨
       (¬ format_ = "json" ∧ pylower format_ = "geotiff" ∧
        ∃ g, encodeGeotiff props crs_obj meas md
            (selBands range_subset (popTimeUnits (loader
              (mkLoadParams props crs_obj range_subset minx miny maxx maxy))))
            (popTimeUnits (loader
              (mkLoadParams props crs_obj range_subset minx miny maxx maxy))) =
          .ok g ∧ out = .geotiff g) ∨
       (¬ format_ = "json" ∧ ¬ pylower format_ = "geotiff" ∧
        out = .netcdf (popTimeUnits (loader
          (mkLoadParams props crs_obj range_subset minx miny maxx maxy))))) := by
  unfold query at h
  split at h
  · simp at h
  · rename_i minx miny maxx maxy hres
    cases hmd : mkOutMeta props options
        (selBands range_subset (popTimeUnits (loader
          (mkLoadParams props crs_obj range_subset minx miny maxx maxy))))
        minx miny maxx maxy with
    | error e =>
        simp only [hmd] at h
        simp at h
    | ok md =>
        simp only [hmd] at h
        refine ⟨minx, miny, maxx, maxy, md, hres, ?_, hmd, ?_⟩
        · split at h
          · rename_i hj
            cases hcj : gen_covjson props md (popTimeUnits (loader
                (mkLoadParams props crs_obj range_subset minx miny maxx maxy))) with
            | error e => simp only [hcj] at h; simp at h
            | ok cj =>
                simp only [hcj, Prod.mk.injEq] at h
                exact h.2.symm
          · split at h
            · rename_i hgt
              cases hg : encodeGeotiff props crs_obj meas md
                  (selBands range_subset (popTimeUnits (loader
                    (mkLoadParams props crs_obj range_subset minx miny maxx maxy))))
                  (popTimeUnits (loader
                    (mkLoadParams props crs_obj range_subset minx miny maxx maxy))) with
              | error e => simp only [hg] at h; simp at h
              | ok g =>
                  simp only [hg, Prod.mk.injEq] at h
                  exact h.2.symm
            · simp only [Prod.mk.injEq] at h
              exact h.2.symm
        · split at h
          · rename_i hj
            cases hcj : gen_covjson props md (popTimeUnits (loader
                (mkLoadParams props crs_obj range_subset minx miny maxx maxy))) with
            | error e => simp only [hcj] at h; simp at h
            | ok cj =>
                simp only [hcj, Prod.mk.injEq, Except.ok.injEq] at h
                exact Or.inl ⟨hj, cj, rfl, h.1.symm⟩
          · rename_i hnj
            split at h
            · rename_i hgt
              cases hg : encodeGeotiff props crs_obj meas md
                  (selBands range_subset (popTimeUnits (loader
                    (mkLoadParams props crs_obj range_subset minx miny maxx maxy))))
                  (popTimeUnits (loader
                    (mkLoadParams props crs_obj range_subset minx miny maxx maxy))) with
              | error e => simp only [hg] at h; simp at h
              | ok g =>
                  simp only [hg, Prod.mk.injEq, Except.ok.injEq] at h
                  exact Or.inr (Or.inl ⟨hnj, hgt, g, rfl, h.1.symm⟩)
            · rename_i hngt
              simp only [Prod.mk.injEq, Except.ok.injEq] at h
              exact Or.inr (Or.inr ⟨hnj, hngt, h.1.symm⟩)

theorem geotiffOk_elim (e : Except PyErr QueryOutput)
    (h : geotiffOk e = true) : e = .ok (.geotiff (geotiffOutD e)) := by
  cases e with
  | error x => simp [geotiffOk] at h
  | ok out => cases out <;> simp_all [geotiffOk, geotiffOutD]

theorem covjsonOk_elim (e : Except PyErr QueryOutput)
    (h : covjsonOk e = true) : e = .ok (.covjson (covjsonOutD e)) := by
  cases e with
  | error x => simp [covjsonOk] at h
  | ok out => cases out <;> simp_all [covjsonOk, covjsonOutD]

theorem sampleResolveRun :
    resolve_spatial_subset sampleProps sampleCrsGeo (fun p => p)
      ([] : List (String × List ℚ)) ([] : List ℚ) = .ok (0, 0, 180, 90) := rfl

theorem sampleSelBands (ds : XDataset) : selBands ["B02"] ds = ["B02"] := rfl

theorem sampleMdRun :
    mkOutMeta sampleProps none ["B02"] 0 0 180 90 = .ok mdSample := by
  norm_num [mkOutMeta, pydiv, sampleProps, mdSample]

theorem sampleGenRun :
    gen_covjson sampleProps mdSample (popTimeUnits (sampleLoader
      (mkLoadParams sampleProps sampleCrsGeo ["B02"] 0 0 180 90))) =
    .ok sampleCJ := rfl

theorem sampleJsonRun :
    query sampleProps sampleCrsGeo sampleMeas none (fun p => p) sampleLoader
      ["B02"] [] [] "json" = (.ok (.covjson sampleCJ), 1) := by
  unfold query
  simp only [sampleResolveRun, sampleSelBands, sampleMdRun, if_true]
  simp only [sampleGenRun]

theorem sampleEncRun :
    encodeGeotiff sampleProps sampleCrsGeo sampleMeas mdSample ["B02"]
      (popTimeUnits (sampleLoader
        (mkLoadParams sampleProps sampleCrsGeo ["B02"] 0 0 180 90))) =
    .ok sampleTiff := rfl

theorem sampleTiffRun :
    query sampleProps sampleCrsGeo sampleMeas none (fun p => p) sampleLoader
      ["B02"] [] [] "geotiff" = (.ok (.geotiff sampleTiff), 1) := by
  unfold query
  simp only [sampleResolveRun, sampleSelBands, sampleMdRun]
  rw [if_neg (by decide), if_pos (by decide)]
  simp only [sampleEncRun]

/-- C7: every GeoTIFF output takes dtype and nodata from the first
measurement dict regardless of the requested bands, has band count equal
to the number of requested bands (when bands were requested), and
carries the stored full-extent affine transform (its first six
coefficients), not one recomputed from the resolved window. -/
theorem geotiff_meta_first_measurement (props : CoverageProps)
    (crs_obj : CRSObj) (meas : List MeasProps)
    (options : Option (List (String × String)))
    (transformPt : ℚ × ℚ → ℚ × ℚ) (loader : LoadParams → XDataset)
    (range_subset : List String) (subsets : List (String × List ℚ))
    (bbox : List ℚ) (format_ : String) (g : GeoTiff)
    (hok : geotiffOk (query props crs_obj meas options transformPt loader
      range_subset subsets bbox format_).1 = true)
    (hg : g = geotiffOutD (query props crs_obj meas options transformPt loader
      range_subset subsets bbox format_).1)
    (hrs : range_subset ≠ []) :
    (∃ m0, pyidx meas 0 = some m0 ∧ g.dtype = m0.dtype ∧ g.nodata = m0.nodata) ∧
    g.count = range_subset.length ∧
    g.transform = props.transform.take 6 ∧
    g.crs = crs_obj.epsg ∧
    g.driver = "GTiff" := by
  have hq1 := geotiffOk_elim _ hok
  rw [← hg] at hq1
  have hq : query props crs_obj meas options transformPt loader range_subset
      subsets bbox format_ =
      (.ok (.geotiff g), (query props crs_obj meas options transformPt loader
        range_subset subsets bbox format_).2) := by
    rw [← hq1]
  obtain ⟨minx, miny, maxx, maxy, md, hres, hn, hmd, hdisp⟩ :=
    query_ok_cases _ _ _ _ _ _ _ _ _ _ _ _ hq
  rcases hdisp with ⟨hj, cj, hgen, hout⟩ | ⟨hnj, hgt, g1, henc, hout⟩ |
    ⟨hnj, hngt, hout⟩
  · simp at hout
  · simp only [QueryOutput.geotiff.injEq] at hout
    subst hout
    obtain ⟨m0, hm0, hdrv, hcrs, hdt, hnd, hcount, htr, hwid, hhei, hbb⟩ :=
      encodeGeotiff_ok_parts _ _ _ _ _ _ _ henc
    rw [selBands_of_ne _ _ hrs] at hcount
    exact ⟨⟨m0, hm0, hdt, hnd⟩, hcount, htr, hcrs, hdrv⟩
  · simp at hout

/-- Witness for C7 at the sample GeoTIFF run. -/
theorem geotiff_meta_first_measurement_witness :
    geotiffOk (query sampleProps sampleCrsGeo sampleMeas none (fun p => p)
      sampleLoader ["B02"] [] [] "geotiff").1 = true ∧
    (["B02"] ≠ ([] : List String)) ∧
    ((∃ m0, pyidx sampleMeas 0 = some m0 ∧
        (geotiffOutD (query sampleProps sampleCrsGeo sampleMeas none
          (fun p => p) sampleLoader ["B02"] [] [] "geotiff").1).dtype =
          m0.dtype ∧
        (geotiffOutD (query sampleProps sampleCrsGeo sampleMeas none
          (fun p => p) sampleLoader ["B02"] [] [] "geotiff").1).nodata =
          m0.nodata) ∧
     (geotiffOutD (query sampleProps sampleCrsGeo sampleMeas none
        (fun p => p) sampleLoader ["B02"] [] [] "geotiff").1).count =
        (["B02"] : List String).length ∧
     (geotiffOutD (query sampleProps sampleCrsGeo sampleMeas none
        (fun p => p) sampleLoader ["B02"] [] [] "geotiff").1).transform =
        sampleProps.transform.take 6 ∧
     (geotiffOutD (query sampleProps sampleCrsGeo sampleMeas none
        (fun p => p) sampleLoader ["B02"] [] [] "geotiff").1).crs =
        sampleCrsGeo.epsg ∧
     (geotiffOutD (query sampleProps sampleCrsGeo sampleMeas none
        (fun p => p) sampleLoader ["B02"] [] [] "geotiff").1).driver =
        "GTiff") :=
  ⟨by rw [sampleTiffRun]; rfl, by decide,
   geotiff_meta_first_measurement sampleProps sampleCrsGeo sampleMeas none
     (fun p => p) sampleLoader ["B02"] [] [] "geotiff" _
     (by rw [sampleTiffRun]; rfl) rfl (by decide)⟩

/-- C8: for every successful query, the output dispatches on the format:
json yields a CoverageJSON mapping, a format whose lower case form is
geotiff yields the GeoTIFF raster, and every other format yields the
NetCDF serialization of the loaded dataset. -/
theorem query_format_dispatch (props : CoverageProps) (crs_obj : CRSObj)
    (meas : List MeasProps) (options : Option (List (String × String)))
    (transformPt : ℚ × ℚ → ℚ × ℚ) (loader : LoadParams → XDataset)
    (range_subset : List String) (subsets : List (String × List ℚ))
    (bbox : List ℚ) (format_ : String)
    (hok : exOk (query props crs_obj meas options transformPt loader
      range_subset subsets bbox format_).1 = true) :
    (format_ = "json" → ∃ cj, (query props crs_obj meas options transformPt
      loader range_subset subsets bbox format_).1 = .ok (.covjson cj)) ∧
    (¬ format_ = "json" → pylower format_ = "geotiff" →
      ∃ g, (query props crs_obj meas options transformPt loader range_subset
        subsets bbox format_).1 = .ok (.geotiff g)) ∧
    (¬ format_ = "json" → ¬ pylower format_ = "geotiff" →
      ∃ ds, (query props crs_obj meas options transformPt loader range_subset
        subsets bbox format_).1 = .ok (.netcdf ds)) := by
  obtain ⟨out, hq1⟩ : ∃ out, (query props crs_obj meas options transformPt
      loader range_subset subsets bbox format_).1 = .ok out := by
    cases hcase : (query props crs_obj meas options transformPt loader
        range_subset subsets bbox format_).1 with
    | ok v => exact ⟨v, rfl⟩
    | error e => rw [hcase] at hok; simp [exOk] at hok
  have hq : query props crs_obj meas options transformPt loader range_subset
      subsets bbox format_ =
      (.ok out, (query props crs_obj meas options transformPt loader
        range_subset subsets bbox format_).2) := by
    rw [← hq1]
  obtain ⟨minx, miny, maxx, maxy, md, hres, hn, hmd, hdisp⟩ :=
    query_ok_cases _ _ _ _ _ _ _ _ _ _ _ _ hq
  refine ⟨?_, ?_, ?_⟩
  · intro hj
    rcases hdisp with ⟨_, cj, hgen, hout⟩ | ⟨hnj, _⟩ | ⟨hnj, _⟩
    · exact ⟨cj, by rw [hq1, hout]⟩
    · exact absurd hj hnj
    · exact absurd hj hnj
  · intro hnj hgt
    rcases hdisp with ⟨hj, _⟩ | ⟨_, _, g, henc, hout⟩ | ⟨_, hngt, _⟩
    · exact absurd hj hnj
    · exact ⟨g, by rw [hq1, hout]⟩
    · exact absurd hgt hngt
  · intro hnj hngt
    rcases hdisp with ⟨hj, _⟩ | ⟨_, hgt, _⟩ | ⟨_, _, hout⟩
    · exact absurd hj hnj
    · exact absurd hgt hngt
    · exact ⟨_, by rw [hq1, hout]⟩

/-- Witness for C8 at the sample json run. -/
theorem query_format_dispatch_witness :
    exOk (query sampleProps sampleCrsGeo sampleMeas none (fun p => p)
      sampleLoader ["B02"] [] [] "json").1 = true ∧
    (("json" : String) = "json" → ∃ cj, (query sampleProps sampleCrsGeo
      sampleMeas none (fun p => p) sampleLoader ["B02"] [] [] "json").1 =
      .ok (.covjson cj)) ∧
    (¬ ("json" : String) = "json" → pylower "json" = "geotiff" →
      ∃ g, (query sampleProps sampleCrsGeo sampleMeas none (fun p => p)
        sampleLoader ["B02"] [] [] "json").1 = .ok (.geotiff g)) ∧
    (¬ ("json" : String) = "json" → ¬ pylower "json" = "geotiff" →
      ∃ ds, (query sampleProps sampleCrsGeo sampleMeas none (fun p => p)
        sampleLoader ["B02"] [] [] "json").1 = .ok (.netcdf ds)) :=
  ⟨by rw [sampleJsonRun]; rfl, query_format_dispatch sampleProps sampleCrsGeo
    sampleMeas none (fun p => p) sampleLoader ["B02"] [] [] "json"
    (by rw [sampleJsonRun]; rfl)⟩

/-- C10: in every produced CoverageJSON document the ranges keys equal
the parameters keys, and both equal the selected band list: the
requested bands when range_subset is non-empty, else all bands of the
loaded dataset. -/
theorem covjson_ranges_parameters_keys (props : CoverageProps)
    (crs_obj : CRSObj) (meas : List MeasProps)
    (options : Option (List (String × String)))
    (transformPt : ℚ × ℚ → ℚ × ℚ) (loader : LoadParams → XDataset)
    (range_subset : List String) (subsets : List (String × List ℚ))
    (bbox : List ℚ) (cj : CovJSON)
    (hok : covjsonOk (query props crs_obj meas options transformPt loader
      range_subset subsets bbox "json").1 = true)
    (hcj : cj = covjsonOutD (query props crs_obj meas options transformPt
      loader range_subset subsets bbox "json").1) :
    (∀ b, b ∈ keysOf cj.ranges ↔ b ∈ keysOf cj.parameters) ∧
    (range_subset ≠ [] →
      ∀ b, b ∈ keysOf cj.parameters ↔ b ∈ range_subset) ∧
    (range_subset = [] → ∃ p, ∀ b, b ∈ keysOf cj.parameters ↔
      b ∈ keysOf (popTimeUnits (loader p)).vars) := by
  have hq1 := covjsonOk_elim _ hok
  rw [← hcj] at hq1
  have hq : query props crs_obj meas options transformPt loader range_subset
      subsets bbox "json" =
      (.ok (.covjson cj), (query props crs_obj meas options transformPt
        loader range_subset subsets bbox "json").2) := by
    rw [← hq1]
  obtain ⟨minx, miny, maxx, maxy, md, hres, hn, hmd, hdisp⟩ :=
    query_ok_cases _ _ _ _ _ _ _ _ _ _ _ _ hq
  rcases hdisp with ⟨_, cj1, hgen, hout⟩ | ⟨hnj, _⟩ | ⟨hnj, _⟩
  · simp only [QueryOutput.covjson.injEq] at hout
    subst hout
    obtain ⟨hpar, hrng, _⟩ := gen_covjson_ok_parts _ _ _ _ hgen
    have hmb := mkOutMeta_bands _ _ _ _ _ _ _ _ hmd
    refine ⟨hrng, ?_, ?_⟩
    · intro hne b
      rw [hpar b, hmb, selBands_of_ne _ _ hne]
    · intro hnil
      subst hnil
      exact ⟨mkLoadParams props crs_obj [] minx miny maxx maxy,
        fun b => by rw [hpar b, hmb, selBands_of_nil]⟩
  · exact absurd rfl hnj
  · exact absurd rfl hnj

/-- Witness for C10 at the sample json run with one requested band. -/
theorem covjson_ranges_parameters_keys_witness :
    covjsonOk (query sampleProps sampleCrsGeo sampleMeas none (fun p => p)
      sampleLoader ["B02"] [] [] "json").1 = true ∧
    ((∀ b, b ∈ keysOf (covjsonOutD (query sampleProps sampleCrsGeo sampleMeas
        none (fun p => p) sampleLoader ["B02"] [] [] "json").1).ranges ↔
      b ∈ keysOf (covjsonOutD (query sampleProps sampleCrsGeo sampleMeas
        none (fun p => p) sampleLoader ["B02"] [] [] "json").1).parameters) ∧
     ((["B02"] : List String) ≠ [] →
      ∀ b, b ∈ keysOf (covjsonOutD (query sampleProps sampleCrsGeo sampleMeas
        none (fun p => p) sampleLoader ["B02"] [] [] "json").1).parameters ↔
      b ∈ (["B02"] : List String)) ∧
     ((["B02"] : List String) = [] → ∃ p, ∀ b,
      b ∈ keysOf (covjsonOutD (query sampleProps sampleCrsGeo sampleMeas
        none (fun p => p) sampleLoader ["B02"] [] [] "json").1).parameters ↔
      b ∈ keysOf (popTimeUnits (sampleLoader p)).vars)) :=
  ⟨by rw [sampleJsonRun]; rfl, covjson_ranges_parameters_keys sampleProps
    sampleCrsGeo sampleMeas none (fun p => p) sampleLoader ["B02"] [] []
    _ (by rw [sampleJsonRun]; rfl) rfl⟩

end OdcProvider
